import Mathlib

/-!
Verification of the weather-data pipeline (ingestion script and dashboard
preparer) against its specification.

The ingestion script fetches an hourly JSON envelope, drops fully-empty rows
(`df.dropna(subset=fiveFields, how='all')`), saves a CSV, uploads it, and
publishes one message per row of the first 24 rows.  The dashboard parses the
time column in place (`df["time"] = pd.to_datetime(df["time"])`), sorts by
time, selects the latest KPI-complete row with a two-tier fallback, and
computes a 24-hour rolling mean of temperature with `min_periods=1`.

Numeric measurement values are modelled as rationals, missing values as
`Option`.  A timestamp value is either still a raw string (`TimeVal.str`) or
already parsed (`TimeVal.dt`); `pd.to_datetime` maps a raw value to the parsed
value carrying the same instant and is the identity on parsed values.
-/

namespace Meteo

/-- A timestamp cell: either an unparsed source value encoding instant `v`,
or a parsed datetime with instant `v`. -/
inductive TimeVal where
  | str (v : Int)
  | dt (v : Int)
deriving DecidableEq, Repr

/-- The instant encoded by a timestamp cell (the sort key after parsing). -/
def TimeVal.instant : TimeVal → Int
  | .str v => v
  | .dt v => v

/-- Embedding of `pd.to_datetime` on one cell: parses a raw value, leaves a
parsed value unchanged. -/
def to_datetime (t : TimeVal) : TimeVal :=
  .dt t.instant

/-- One hourly weather record: a timestamp plus five independently nullable
measured fields. -/
structure WRec where
  time : TimeVal
  temperature_2m : Option ℚ
  soil_temperature_0_to_7cm : Option ℚ
  soil_moisture_0_to_7cm : Option ℚ
  dew_point_2m : Option ℚ
  relative_humidity_2m : Option ℚ
deriving DecidableEq, Repr

/-- A record keeps at least one of the five measured fields:
the row-retention test of `df.dropna(subset=[five fields], how='all')`. -/
def keepRow (r : WRec) : Bool :=
  r.temperature_2m.isSome || r.soil_temperature_0_to_7cm.isSome ||
    r.soil_moisture_0_to_7cm.isSome || r.dew_point_2m.isSome ||
    r.relative_humidity_2m.isSome

/-- Ingestion normalizer: `df.dropna(subset=[five fields], how='all')` drops
exactly the rows whose five measured fields are all null. -/
def normalize (df : List WRec) : List WRec :=
  df.filter keepRow

/-- Normalizer keeping the original positional index label of each retained
row, as `iterrows` later observes it (pandas `dropna` keeps index labels). -/
def normalizeIdx (df : List WRec) : List (Nat × WRec) :=
  df.enum.filter fun p => keepRow p.2

example : normalize [] = [] := by decide

/-! ### Dashboard preparer (`app3.py`, lines 70-80) -/

/-- Record comparison used by `df.sort_values("time")`: by parsed instant. -/
def timeLE (a b : WRec) : Prop :=
  a.time.instant ≤ b.time.instant

instance : DecidableRel timeLE := fun a b =>
  inferInstanceAs (Decidable (a.time.instant ≤ b.time.instant))

instance : IsTotal WRec timeLE :=
  ⟨fun a b => Int.le_total a.time.instant b.time.instant⟩

instance : IsTrans WRec timeLE :=
  ⟨fun _ _ _ hab hbc => le_trans hab hbc⟩

/-- Embedding of the in-place column assignment
`df["time"] = pd.to_datetime(df["time"])` on one row. -/
def parseRow (r : WRec) : WRec :=
  { r with time := to_datetime r.time }

/-- Embedding of `df.sort_values("time")` on row lists.  The program uses
the pandas default quicksort, which guarantees a permutation of the rows
sorted ascending by the parsed timestamp but does not specify the relative
order of rows with equal timestamps; this embedding fixes one concrete
sorted permutation (insertion sort).  No theorem below depends on the order
chosen among equal-timestamp rows. -/
def sortSeries (df : List WRec) : List WRec :=
  df.insertionSort timeLE

/-- The KPI-completeness test of
`df.dropna(subset=["temperature_2m", "soil_moisture_0_to_7cm"])`:
a row survives iff both headline fields are non-null. -/
def completeKpi (r : WRec) : Bool :=
  r.temperature_2m.isSome && r.soil_moisture_0_to_7cm.isSome

/-- Mean of the non-null values of a window, null when the window holds no
non-null value: the per-position behaviour of pandas
`rolling(window=24, min_periods=1).mean()`. -/
def meanOpt (w : List (Option ℚ)) : Option ℚ :=
  let vs := w.filterMap id
  if vs = [] then none else some (vs.sum / vs.length)

/-- The trailing window of at most 24 cells ending at position `i`
(positions `max 0 (i-23)` through `i`). -/
def window24 (xs : List (Option ℚ)) (i : Nat) : List (Option ℚ) :=
  (xs.take (i + 1)).drop (i + 1 - 24)

/-- Embedding of
`df["temperature_2m"].rolling(window=24, min_periods=1).mean()`. -/
def rollingMean24 (xs : List (Option ℚ)) : List (Option ℚ) :=
  (List.range xs.length).map fun i => meanOpt (window24 xs i)

/-- Everything the preparer leaves behind: the caller-visible input after the
in-place time parse, the sorted series, the warning flag and headline row of
the two-tier latest selection, and the derived rolling column. -/
structure PrepResult where
  mutatedInput : List WRec
  series : List WRec
  warn : Bool
  latest : Option WRec
  rolling : List (Option ℚ)
deriving DecidableEq, Repr

/-- Embedding of `app3.py` lines 70-80: parse the time column in place, sort
by time, pick the latest KPI-complete row (falling back, with a warning, to
the latest row overall), and attach the rolling temperature mean. -/
def prepare (input : List WRec) : PrepResult :=
  let parsed := input.map parseRow
  let df := sortSeries parsed
  let dfKpi := df.filter completeKpi
  let warn := dfKpi.isEmpty
  let latest := if dfKpi.isEmpty then df.getLast? else dfKpi.getLast?
  let rolling := rollingMean24 (df.map (·.temperature_2m))
  ⟨parsed, df, warn, latest, rolling⟩

/-! ### Dashboard remote load (`app3.py`, lines 23-53) -/

/-- Outcome of the collaborator calls inside `load_gcs_csv`'s `try` block:
either CSV rows or some raised exception's message. -/
def GcsResult := Except String (List WRec)

/-- Embedding of `load_gcs_csv`: any failure inside the `try` block is caught,
reported via `st.error`, and turned into `None`.  Returns the loaded frame
(if any) together with the list of error reports emitted. -/
def load_gcs_csv (res : GcsResult) : Option (List WRec) × List String :=
  match res with
  | .ok df => (some df, [])
  | .error e => (none, ["GCS Error: " ++ e])

/-- Embedding of the load-button handler, `app3.py` line 53:
`st.session_state.df = load_gcs_csv(BUCKET_NAME, BLOB_NAME)` overwrites the
session series with whatever the load returns. -/
def loadButtonClick (_session : Option (List WRec)) (res : GcsResult) :
    Option (List WRec) :=
  (load_gcs_csv res).1

/-- What the dashboard body renders, `app3.py` lines 65-131: data when a
series is loaded, otherwise only the load prompt. -/
def rendersData (session : Option (List WRec)) : Bool :=
  session.isSome

/-! ### Ingestion pipeline (`fetchandupload2.py`) -/

/-- The `hourly` envelope of the API response: a time array plus five field
arrays, any of which may be absent from the JSON. -/
structure Env where
  time : List Int
  temperature_2m : Option (List (Option ℚ))
  soil_temperature_0_to_7cm : Option (List (Option ℚ))
  soil_moisture_0_to_7cm : Option (List (Option ℚ))
  dew_point_2m : Option (List (Option ℚ))
  relative_humidity_2m : Option (List (Option ℚ))
deriving DecidableEq, Repr

/-- All five expected field arrays are present in the envelope. -/
def envComplete (e : Env) : Bool :=
  e.temperature_2m.isSome && e.soil_temperature_0_to_7cm.isSome &&
    e.soil_moisture_0_to_7cm.isSome && e.dew_point_2m.isSome &&
    e.relative_humidity_2m.isSome

/-- Row `i` of `pd.DataFrame(data)` built from a complete envelope (absent
cells within a present array are null). -/
def buildRow (e : Env) (i : Nat) : WRec :=
  { time := .str (e.time.getD i 0)
    temperature_2m := (e.temperature_2m.getD []).getD i none
    soil_temperature_0_to_7cm := (e.soil_temperature_0_to_7cm.getD []).getD i none
    soil_moisture_0_to_7cm := (e.soil_moisture_0_to_7cm.getD []).getD i none
    dew_point_2m := (e.dew_point_2m.getD []).getD i none
    relative_humidity_2m := (e.relative_humidity_2m.getD []).getD i none }

/-- The rows of `pd.DataFrame(data)`, one per hourly timestamp. -/
def buildRows (e : Env) : List WRec :=
  (List.range e.time.length).map (buildRow e)

/-- The stage of the ingestion script at which a failure surfaces. -/
inductive Stage where
  | fetch
  | normalizeRows
  | save
  | upload
  | publish
deriving DecidableEq, Repr

/-- Externally visible events of one ingestion run. -/
inductive Ev where
  | fetchReq
  | saveCsv
  | uploadCsv
  | publishMsg (i : Nat) (t : Option ℚ)
  | reportFailure (s : Stage)
deriving DecidableEq, Repr

/-- The pub/sub messages of a successful publish block:
`for i, row in df.head(24).iterrows(): publish(f"Weather event {i}: ...")`,
where `i` is the row's original index label kept by `dropna`. -/
def publishEvents (rows : List WRec) : List Ev :=
  ((normalizeIdx rows).take 24).map fun p => .publishMsg p.1 p.2.temperature_2m

/-- Embedding of the straight-line script `fetchandupload2.py`.
`raw = none` models a fetch that raised or a response without an `hourly`
envelope (`response.json()["hourly"]`, line 38); an incomplete envelope makes
`df.dropna(subset=[five fields], how='all')` raise `KeyError` (lines 42-45);
`uploadOk`/`publishOk` are the collaborator outcomes of lines 51-66.  Only the
publish block is wrapped in `try`/`except`.  Returns the event trace and
whether the script ran to completion. -/
def runIngest (raw : Option Env) (uploadOk publishOk : Bool) :
    List Ev × Bool :=
  match raw with
  | none => ([.fetchReq, .reportFailure .fetch], false)
  | some e =>
    if envComplete e then
      let df := buildRows e
      if uploadOk then
        let pubs := if publishOk then publishEvents df
          else [.reportFailure .publish]
        ([.fetchReq, .saveCsv, .uploadCsv] ++ pubs, true)
      else
        ([.fetchReq, .saveCsv, .uploadCsv, .reportFailure .upload], false)
    else
      ([.fetchReq, .reportFailure .normalizeRows], false)

/-- The stage reported by the first failure report of a trace, if any. -/
def failStage (tr : List Ev) : Option Stage :=
  tr.filterMap (fun ev => match ev with
    | .reportFailure s => some s
    | _ => none) |>.head?

/-- The publish messages occurring in a trace, in order. -/
def pubsOf (tr : List Ev) : List Ev :=
  tr.filter fun ev => match ev with
    | .publishMsg _ _ => true
    | _ => false

/-! ### Concrete example data -/

/-- A record whose five measured fields are all null. -/
def recEmpty : WRec :=
  ⟨.str 1, none, none, none, none, none⟩

/-- A record with only a temperature (soil moisture null). -/
def recTempOnly (t : Int) (v : ℚ) : WRec :=
  ⟨.str t, some v, none, none, none, none⟩

/-- A fully populated record. -/
def recFull (t : Int) (v : ℚ) : WRec :=
  ⟨.str t, some v, some v, some v, some v, some v⟩

/-- Three raw rows: full, all-null, full. -/
def exRows : List WRec :=
  [recFull 0 5, recEmpty, recFull 2 7]

/-- A constant 30-record series with temperature 10.0 everywhere. -/
def const30 : List WRec :=
  List.replicate 30 (recFull 0 10)

/-- A well-formed two-hour envelope with all five field arrays present. -/
def envOk : Env :=
  ⟨[0, 1], some [some 5, none], some [none, none], some [some 1, none],
    some [none, none], some [none, none]⟩

/-- An envelope whose `temperature_2m` array is missing. -/
def envMissingTemp : Env :=
  ⟨[0], none, some [some 1], some [some 1], some [some 1], some [some 1]⟩

/-! ### Helper lemmas -/

theorem rollingMean24_getElem (xs : List (Option ℚ)) (i : Nat)
    (h : i < xs.length) :
    (rollingMean24 xs)[i]? = some (meanOpt (window24 xs i)) := by
  simp [rollingMean24, List.getElem?_map, List.getElem?_range, h]

theorem prepare_rolling_eq (xs : List WRec) :
    (prepare xs).rolling =
      rollingMean24 ((prepare xs).series.map fun r => r.temperature_2m) :=
  rfl

theorem meanOpt_replicate_some (k : Nat) (hk : k ≠ 0) (c : ℚ) :
    meanOpt (List.replicate k (some c)) = some c := by
  have hf : (List.replicate k (some c)).filterMap id = List.replicate k c := by
    simp [List.filterMap_replicate]
  have hne : List.replicate k c ≠ [] := by
    simp [hk]
  simp only [meanOpt, hf, hne, if_false, List.sum_replicate,
    List.length_replicate, Option.some.injEq]
  rw [nsmul_eq_mul]
  exact mul_div_cancel_left₀ c (Nat.cast_ne_zero.mpr hk)

theorem prepare_series_const30 :
    (prepare const30).series = List.replicate 30 (parseRow (recFull 0 10)) := by
  have hmap : const30.map parseRow = List.replicate 30 (parseRow (recFull 0 10)) := by
    simp [const30, List.map_replicate]
  have hperm := List.perm_insertionSort timeLE (const30.map parseRow)
  refine List.eq_replicate_iff.mpr ⟨?_, ?_⟩
  · show (sortSeries (const30.map parseRow)).length = 30
    simp [sortSeries, List.length_insertionSort, const30]
  · intro b hb
    have hmem : b ∈ const30.map parseRow :=
      (List.mem_insertionSort timeLE).1 hb
    rw [hmap] at hmem
    exact List.eq_of_mem_replicate hmem

theorem getLast?_filter_eq_find?_reverse (l : List WRec) (p : WRec → Bool) :
    (l.filter p).getLast? = l.reverse.find? p := by
  calc (l.filter p).getLast? = (l.filter p).reverse.head? :=
        (List.head?_reverse _).symm
    _ = (l.reverse.filter p).head? := by rw [List.filter_reverse]
    _ = l.reverse.find? p := List.filter_head? p _

theorem prepare_warn_eq (xs : List WRec) :
    (prepare xs).warn = ((prepare xs).series.filter completeKpi).isEmpty :=
  rfl

theorem prepare_latest_eq (xs : List WRec) :
    (prepare xs).latest =
      if ((prepare xs).series.filter completeKpi).isEmpty then
        (prepare xs).series.getLast?
      else ((prepare xs).series.filter completeKpi).getLast? :=
  rfl

theorem prepare_mutated_eq (xs : List WRec) :
    (prepare xs).mutatedInput = xs.map parseRow :=
  rfl

theorem prepare_series_eq (xs : List WRec) :
    (prepare xs).series = sortSeries (xs.map parseRow) :=
  rfl

theorem enumFrom_filter_map_snd (q : WRec → Bool) :
    ∀ (n : Nat) (l : List WRec),
      ((List.enumFrom n l).filter fun x => q x.2).map Prod.snd = l.filter q := by
  intro n l
  induction l generalizing n with
  | nil => rfl
  | cons a l ih =>
    rw [List.enumFrom_cons, List.filter_cons, List.filter_cons]
    by_cases ha : q a <;> simp [ha, ih]

theorem normalizeIdx_map_snd (l : List WRec) :
    (normalizeIdx l).map Prod.snd = normalize l :=
  enumFrom_filter_map_snd keepRow 0 l

theorem not_mem_publishEvents (rows : List WRec) (ev : Ev)
    (h : ∀ i t, ev ≠ .publishMsg i t) : ev ∉ publishEvents rows := by
  intro hmem
  obtain ⟨q, _, hq⟩ := List.mem_map.mp hmem
  exact h q.1 q.2.temperature_2m hq.symm

theorem pubsOf_append (a b : List Ev) : pubsOf (a ++ b) = pubsOf a ++ pubsOf b :=
  List.filter_append ..

theorem pubsOf_publishEvents (rows : List WRec) :
    pubsOf (publishEvents rows) = publishEvents rows := by
  refine List.filter_eq_self.mpr ?_
  intro a ha
  obtain ⟨q, _, hq⟩ := List.mem_map.mp ha
  rw [← hq]

theorem publishEvents_nodup (rows : List WRec) :
    (publishEvents rows).Nodup := by
  have hfst : (((normalizeIdx rows).take 24).map Prod.fst).Nodup := by
    have h1 : ((normalizeIdx rows).take 24).Sublist (normalizeIdx rows) :=
      List.take_sublist ..
    have h2 : (normalizeIdx rows).Sublist rows.enum := List.filter_sublist _
    have h3 : (((normalizeIdx rows).take 24).map Prod.fst).Sublist
        (rows.enum.map Prod.fst) := (h1.trans h2).map Prod.fst
    rw [List.enum_map_fst] at h3
    exact h3.nodup (List.nodup_range ..)
  have hnd : ((normalizeIdx rows).take 24).Nodup := List.Nodup.of_map _ hfst
  refine List.Nodup.map_on ?_ hnd
  intro x hx y hy hxy
  simp only [Ev.publishMsg.injEq] at hxy
  exact List.inj_on_of_nodup_map hfst hx hy hxy.1

theorem runIngest_good (e : Env) (hc : envComplete e = true) :
    runIngest (some e) true true =
      ([.fetchReq, .saveCsv, .uploadCsv] ++ publishEvents (buildRows e), true) := by
  simp [runIngest, hc]

/-! ### Claim theorems -/

/-- C1: for every series, the rolling column at 0-indexed position `i` of the
sorted series is the arithmetic mean of the non-null `temperature_2m` values
at positions `max 0 (i-23)` through `i` (written with truncated natural
subtraction `i - 23`), nulls being excluded from both the sum and the count,
and is null when the whole window is null; in particular on a 30-record
series with constant temperature 10.0 every position carries 10.0. -/
theorem temp_rolling_24h_spec :
    (∀ (xs : List WRec) (i : Nat), i < (prepare xs).series.length →
      (prepare xs).rolling[i]? =
        some (
          let w := (((prepare xs).series.map fun r => r.temperature_2m).drop
            (i - 23)).take (i + 1 - (i - 23))
          let vs := w.filterMap id
          if vs = [] then none else some (vs.sum / (vs.length : ℚ))))
    ∧ (∀ j, j < 30 → (prepare const30).rolling[j]? = some (some 10)) := by
  constructor
  · intro xs i hi
    rw [prepare_rolling_eq]
    have hlen : i < ((prepare xs).series.map fun r => r.temperature_2m).length := by
      simpa using hi
    rw [rollingMean24_getElem _ i hlen]
    congr 1
    have hw : window24 ((prepare xs).series.map fun r => r.temperature_2m) i =
        (((prepare xs).series.map fun r => r.temperature_2m).drop (i - 23)).take
          (i + 1 - (i - 23)) := by
      rw [window24, List.drop_take]
      have h1 : i + 1 - 24 = i - 23 := by omega
      rw [h1]
    rw [hw]
    rfl
  · intro j hj
    rw [prepare_rolling_eq]
    have hmap : ((prepare const30).series.map fun r => r.temperature_2m) =
        List.replicate 30 (some (10 : ℚ)) := by
      rw [prepare_series_const30]
      simp [List.map_replicate, parseRow, recFull]
    rw [hmap, rollingMean24_getElem _ j (by simpa using hj)]
    rw [window24, List.take_replicate, List.drop_replicate]
    rw [meanOpt_replicate_some _ (by omega) 10]

/-- C1 witness: on a one-record series with null temperature, the rolling
value at position 0 is null (all-null window), as the theorem instantiated at
that series and index computes. -/
theorem temp_rolling_24h_spec_witness :
    0 < (prepare [recEmpty]).series.length ∧
    (prepare [recEmpty]).rolling[0]? = some none := by
  refine ⟨by decide, ?_⟩
  rw [temp_rolling_24h_spec.1 [recEmpty] 0 (by decide)]
  decide

/-- C2: the preparer selects as headline row the chronologically last record
of the sorted series whose `temperature_2m` and `soil_moisture_0_to_7cm` are
both non-null; when no record qualifies it raises the non-fatal
`IncompleteData` warning and falls back to the chronologically last record of
the unfiltered sorted series. -/
theorem latest_complete_selection (xs : List WRec) :
    ((∃ r ∈ (prepare xs).series, completeKpi r = true) →
      (prepare xs).warn = false ∧
      (prepare xs).latest = (prepare xs).series.reverse.find? completeKpi)
    ∧ ((∀ r ∈ (prepare xs).series, completeKpi r = false) →
      (prepare xs).warn = true ∧
      (prepare xs).latest = (prepare xs).series.getLast?) := by
  constructor
  · rintro ⟨r, hr, hp⟩
    have hne : (prepare xs).series.filter completeKpi ≠ [] :=
      List.ne_nil_of_mem (List.mem_filter.mpr ⟨hr, hp⟩)
    have hemp : ((prepare xs).series.filter completeKpi).isEmpty = false := by
      simpa [List.isEmpty_iff] using hne
    refine ⟨by rw [prepare_warn_eq, hemp], ?_⟩
    rw [prepare_latest_eq, hemp]
    simp [getLast?_filter_eq_find?_reverse (prepare xs).series completeKpi]
  · intro hall
    have hnil : (prepare xs).series.filter completeKpi = [] :=
      List.filter_eq_nil_iff.mpr fun r hr => by simp [hall r hr]
    have hemp : ((prepare xs).series.filter completeKpi).isEmpty = true := by
      simp [List.isEmpty_iff, hnil]
    exact ⟨by rw [prepare_warn_eq, hemp], by rw [prepare_latest_eq, hemp]; simp⟩

/-- C2 witness: on the concrete three-row series (which contains a
KPI-complete record) the warning is off and the headline row is the last
KPI-complete record of the sorted series. -/
theorem latest_complete_selection_witness :
    (prepare exRows).warn = false ∧
    (prepare exRows).latest = (prepare exRows).series.reverse.find? completeKpi :=
  (latest_complete_selection exRows).1 ⟨parseRow (recFull 2 7), by decide, by decide⟩

/-- C3: `normalize` keeps exactly the records with at least one non-null
measured field: the output is a sublist of the input (records unchanged and
in their original relative order), it is no longer than the input, every
output record has some non-null measured field, and each record value occurs
in the output exactly as often as in the input when it has a non-null
measured field and never otherwise. -/
theorem normalize_keeps_exactly_nonempty_rows (xs : List WRec) :
    (normalize xs).Sublist xs
    ∧ (normalize xs).length ≤ xs.length
    ∧ (∀ r ∈ normalize xs,
        r.temperature_2m ≠ none ∨ r.soil_temperature_0_to_7cm ≠ none ∨
        r.soil_moisture_0_to_7cm ≠ none ∨ r.dew_point_2m ≠ none ∨
        r.relative_humidity_2m ≠ none)
    ∧ (∀ r : WRec, keepRow r = true → (normalize xs).count r = xs.count r)
    ∧ (∀ r : WRec, keepRow r = false → (normalize xs).count r = 0) := by
  refine ⟨List.filter_sublist xs, (List.filter_sublist xs).length_le, ?_, ?_, ?_⟩
  · intro r hr
    have hk : keepRow r = true := (List.mem_filter.mp hr).2
    simp only [keepRow, Bool.or_eq_true, Option.isSome_iff_ne_none] at hk
    tauto
  · intro r hk
    exact List.count_filter hk
  · intro r hk
    refine List.count_eq_zero.mpr fun hmem => ?_
    have := (List.mem_filter.mp hmem).2
    simp [hk] at this

/-- C3 witness: on the concrete three-row input, the retained middle-dropped
output rows each expose a non-null measured field. -/
theorem normalize_keeps_exactly_nonempty_rows_witness :
    recFull 0 5 ∈ normalize exRows ∧
    ((recFull 0 5).temperature_2m ≠ none ∨
      (recFull 0 5).soil_temperature_0_to_7cm ≠ none ∨
      (recFull 0 5).soil_moisture_0_to_7cm ≠ none ∨
      (recFull 0 5).dew_point_2m ≠ none ∨
      (recFull 0 5).relative_humidity_2m ≠ none) :=
  ⟨by decide, (normalize_keeps_exactly_nonempty_rows exRows).2.2.1
    (recFull 0 5) (by decide)⟩

/-- C5: re-running the preparer on its own sorted output (the derived rolling
column is carried separately, so dropping it is implicit) reproduces the
same sorted series, the same rolling column, the same warning and the same
headline selection. -/
theorem prepare_idempotent (xs : List WRec) :
    (prepare ((prepare xs).series)).series = (prepare xs).series
    ∧ (prepare ((prepare xs).series)).rolling = (prepare xs).rolling
    ∧ (prepare ((prepare xs).series)).warn = (prepare xs).warn
    ∧ (prepare ((prepare xs).series)).latest = (prepare xs).latest := by
  have hfix : ∀ r ∈ (prepare xs).series, parseRow r = r := by
    intro r hr
    rw [prepare_series_eq] at hr
    obtain ⟨y, _, rfl⟩ := List.mem_map.mp ((List.mem_insertionSort timeLE).1 hr)
    rfl
  have hmap : (prepare xs).series.map parseRow = (prepare xs).series := by
    calc (prepare xs).series.map parseRow = (prepare xs).series.map id :=
          List.map_congr_left hfix
      _ = (prepare xs).series := List.map_id _
  have hseries : (prepare ((prepare xs).series)).series = (prepare xs).series := by
    rw [prepare_series_eq ((prepare xs).series), hmap]
    exact List.Sorted.insertionSort_eq
      (by rw [prepare_series_eq]; exact List.sorted_insertionSort timeLE (xs.map parseRow))
  refine ⟨hseries, ?_, ?_, ?_⟩
  · rw [prepare_rolling_eq, prepare_rolling_eq, hseries]
  · rw [prepare_warn_eq, prepare_warn_eq, hseries]
  · rw [prepare_latest_eq, prepare_latest_eq, hseries]

/-- C6 counterexample: for a raw source whose `hourly` envelope is present
but whose `temperature_2m` array is missing, the run does fail, yet the
failure surfaces at the normalization step itself (pandas `dropna` raising on
the absent subset column), not before normalization begins as the claim
states. -/
theorem malformed_detection_cex :
    failStage (runIngest (some envMissingTemp) true true).1 ≠ some Stage.fetch
    ∧ failStage (runIngest (some envMissingTemp) true true).1 =
        some Stage.normalizeRows
    ∧ (runIngest (some envMissingTemp) true true).2 = false := by
  refine ⟨by decide, by decide, by decide⟩

/-- C6 amended: a raw source without the `hourly` envelope fails at the fetch
stage, before normalization; a source whose envelope lacks one of the five
field arrays makes the normalization step itself fail; in both cases the run
aborts with no CSV written, no upload and no publish, so the malformed shape
is never coerced into an empty or partial series. -/
theorem malformed_input_aborts (raw : Option Env) (u p : Bool) :
    (raw = none →
      (runIngest raw u p).1 = [.fetchReq, .reportFailure .fetch]
      ∧ (runIngest raw u p).2 = false)
    ∧ (∀ e, raw = some e → envComplete e = false →
      (runIngest raw u p).1 = [.fetchReq, .reportFailure .normalizeRows]
      ∧ (runIngest raw u p).2 = false)
    ∧ ((raw = none ∨ ∃ e, raw = some e ∧ envComplete e = false) →
      Ev.saveCsv ∉ (runIngest raw u p).1 ∧ Ev.uploadCsv ∉ (runIngest raw u p).1
      ∧ pubsOf (runIngest raw u p).1 = []) := by
  refine ⟨?_, ?_, ?_⟩
  · rintro rfl
    exact ⟨rfl, rfl⟩
  · rintro e rfl h
    rw [show runIngest (some e) u p = ([.fetchReq, .reportFailure .normalizeRows], false)
      from by simp [runIngest, h]]
    exact ⟨rfl, rfl⟩
  · rintro (rfl | ⟨e, rfl, h⟩)
    · rw [show runIngest none u p = ([.fetchReq, .reportFailure .fetch], false) from rfl]
      exact ⟨by decide, by decide, rfl⟩
    · rw [show runIngest (some e) u p = ([.fetchReq, .reportFailure .normalizeRows], false)
        from by simp [runIngest, h]]
      exact ⟨by decide, by decide, rfl⟩

/-- C6 amended witness: instantiated at the concrete envelope missing its
temperature array. -/
theorem malformed_input_aborts_witness :
    (runIngest (some envMissingTemp) true true).1 =
      [.fetchReq, .reportFailure .normalizeRows]
    ∧ (runIngest (some envMissingTemp) true true).2 = false :=
  (malformed_input_aborts (some envMissingTemp) true true).2.1
    envMissingTemp rfl (by decide)

/-- C8: one ingestion run calls fetch exactly once and upload at most once;
a fetch-stage failure (or malformed shape) prevents any upload and any
publish; an upload failure prevents any publish and aborts the run; a publish
failure is reported exactly once and swallowed (the run still completes); and
no publish message is ever repeated. -/
theorem pipeline_order (raw : Option Env) (u p : Bool) :
    (runIngest raw u p).1.count Ev.fetchReq = 1
    ∧ (runIngest raw u p).1.count Ev.uploadCsv ≤ 1
    ∧ (raw = none →
        Ev.uploadCsv ∉ (runIngest raw u p).1
        ∧ pubsOf (runIngest raw u p).1 = []
        ∧ (runIngest raw u p).2 = false)
    ∧ (∀ e, raw = some e → envComplete e = true → u = false →
        (runIngest raw u p).1 =
          [.fetchReq, .saveCsv, .uploadCsv, .reportFailure .upload]
        ∧ (runIngest raw u p).2 = false)
    ∧ (∀ e, raw = some e → envComplete e = true → u = true → p = false →
        (runIngest raw u p).1 =
          [.fetchReq, .saveCsv, .uploadCsv, .reportFailure .publish]
        ∧ (runIngest raw u p).2 = true
        ∧ (runIngest raw u p).1.count (Ev.reportFailure .publish) = 1)
    ∧ (∀ e, raw = some e → envComplete e = true → u = true → p = true →
        (runIngest raw u p).1 =
          [.fetchReq, .saveCsv, .uploadCsv] ++ publishEvents (buildRows e)
        ∧ (runIngest raw u p).2 = true
        ∧ ∀ s, Ev.reportFailure s ∉ (runIngest raw u p).1)
    ∧ (pubsOf (runIngest raw u p).1).Nodup := by
  rcases raw with _ | e
  · rw [show runIngest none u p = ([.fetchReq, .reportFailure .fetch], false) from rfl]
    refine ⟨by decide, by decide, fun _ => ⟨by decide, rfl, rfl⟩, ?_, ?_, ?_, by decide⟩
    · intro e' he'
      exact Option.noConfusion he'
    · intro e' he'
      exact Option.noConfusion he'
    · intro e' he'
      exact Option.noConfusion he'
  · by_cases hc : envComplete e = true
    · cases u
      · rw [show runIngest (some e) false p =
            ([.fetchReq, .saveCsv, .uploadCsv, .reportFailure .upload], false)
          from by simp [runIngest, hc]]
        refine ⟨by decide, by decide, ?_, ?_, ?_, ?_, by decide⟩
        · intro h
          exact Option.noConfusion h
        · intro e' he' hc' hu
          exact ⟨rfl, rfl⟩
        · intro e' he' hc' hu
          exact Bool.noConfusion hu
        · intro e' he' hc' hu
          exact Bool.noConfusion hu
      · cases p
        · rw [show runIngest (some e) true false =
              ([.fetchReq, .saveCsv, .uploadCsv, .reportFailure .publish], true)
            from by simp [runIngest, hc]]
          refine ⟨by decide, by decide, ?_, ?_, ?_, ?_, by decide⟩
          · intro h
            exact Option.noConfusion h
          · intro e' he' hc' hu
            exact Bool.noConfusion hu
          · intro e' he' hc' hu hp
            exact ⟨rfl, rfl, by decide⟩
          · intro e' he' hc' hu hp
            exact Bool.noConfusion hp
        · rw [runIngest_good e hc]
          have hnp : ∀ ev : Ev, (∀ i t, ev ≠ .publishMsg i t) →
              (publishEvents (buildRows e)).count ev = 0 := fun ev h =>
            List.count_eq_zero.mpr (not_mem_publishEvents _ _ h)
          refine ⟨?_, ?_, ?_, ?_, ?_, ?_, ?_⟩
          · rw [List.count_append,
              hnp Ev.fetchReq fun i t h => Ev.noConfusion h]
            decide
          · rw [List.count_append,
              hnp Ev.uploadCsv fun i t h => Ev.noConfusion h]
            decide
          · intro h
            exact Option.noConfusion h
          · intro e' he' hc' hu
            exact Bool.noConfusion hu
          · intro e' he' hc' hu hp
            exact Bool.noConfusion hp
          · intro e' he' hc' hu hp
            injection he' with he2
            subst he2
            refine ⟨rfl, rfl, fun s => ?_⟩
            rw [List.mem_append]
            rintro (hs | hs)
            · simp at hs
            · exact not_mem_publishEvents _ _ (fun i t h => Ev.noConfusion h) hs
          · rw [pubsOf_append, pubsOf_publishEvents,
              show pubsOf [Ev.fetchReq, Ev.saveCsv, Ev.uploadCsv] = [] from rfl,
              List.nil_append]
            exact publishEvents_nodup _
    · rw [show runIngest (some e) u p =
          ([.fetchReq, .reportFailure .normalizeRows], false)
        from by simp [runIngest, hc]]
      refine ⟨by decide, by decide, ?_, ?_, ?_, ?_, by decide⟩
      · intro h
        exact Option.noConfusion h
      all_goals
        intro e' he' hce'
        injection he' with he2
        subst he2
        exact absurd hce' hc

/-- C8 witness: with a well-formed envelope and a failing upload
collaborator, the run stops after the upload attempt with no publish. -/
theorem pipeline_order_witness :
    (runIngest (some envOk) false true).1 =
      [.fetchReq, .saveCsv, .uploadCsv, .reportFailure .upload]
    ∧ (runIngest (some envOk) false true).2 = false :=
  (pipeline_order (some envOk) false true).2.2.2.1 envOk rfl (by decide) rfl

/-- C9: in a successful run the published messages are exactly one message
per row of the head (first at most 24 rows) of the normalized series, each
carrying that row's original index label and its `temperature_2m` value;
their number is `min 24` the normalized length, hence never more than 24 and
never one per record when more than 24 records exist. -/
theorem publish_first24 (e : Env) (hc : envComplete e = true) :
    pubsOf (runIngest (some e) true true).1 =
      ((normalizeIdx (buildRows e)).take 24).map
        (fun q => Ev.publishMsg q.1 q.2.temperature_2m)
    ∧ (normalizeIdx (buildRows e)).map Prod.snd = normalize (buildRows e)
    ∧ (pubsOf (runIngest (some e) true true).1).length =
        min 24 (normalize (buildRows e)).length := by
  have h1 : pubsOf (runIngest (some e) true true).1 = publishEvents (buildRows e) := by
    rw [runIngest_good e hc, pubsOf_append, pubsOf_publishEvents,
      show pubsOf [Ev.fetchReq, Ev.saveCsv, Ev.uploadCsv] = [] from rfl,
      List.nil_append]
  have hlen : (normalizeIdx (buildRows e)).length = (normalize (buildRows e)).length := by
    rw [← normalizeIdx_map_snd]
    exact (List.length_map ..).symm
  refine ⟨h1, normalizeIdx_map_snd _, ?_⟩
  rw [h1, publishEvents, List.length_map, List.length_take, hlen]

/-- C9 witness: instantiated at the concrete two-hour envelope, whose second
row is dropped by normalization, so exactly one message is published. -/
theorem publish_first24_witness :
    pubsOf (runIngest (some envOk) true true).1 =
      ((normalizeIdx (buildRows envOk)).take 24).map
        (fun q => Ev.publishMsg q.1 q.2.temperature_2m)
    ∧ (normalizeIdx (buildRows envOk)).map Prod.snd = normalize (buildRows envOk)
    ∧ (pubsOf (runIngest (some envOk) true true).1).length =
        min 24 (normalize (buildRows envOk)).length :=
  publish_first24 envOk (by decide)

/-- C7 counterexample: the preparer does mutate its input: the in-place
column assignment `df["time"] = pd.to_datetime(df["time"])` is executed on
the session-state frame itself, so after `prepare` the caller-visible input
has parsed time values instead of its raw ones. -/
theorem prepare_mutates_input_cex :
    (prepare [recTempOnly 1 5]).mutatedInput ≠ [recTempOnly 1 5] := by
  decide

/-- C7 amended: `prepare` mutates its input only by replacing the `time`
column in place with its parsed values; row order, row count, the encoded
instants and all five measured fields are untouched, and an input whose time
column is already parsed is left entirely unchanged (sorting, the KPI filter
and the rolling column are computed on copies). -/
theorem prepare_parses_time_in_place (xs : List WRec) :
    (prepare xs).mutatedInput = xs.map parseRow
    ∧ (prepare xs).mutatedInput.length = xs.length
    ∧ (∀ i : Nat, ((prepare xs).mutatedInput[i]?).map (fun r => r.time.instant)
        = (xs[i]?).map fun r => r.time.instant)
    ∧ (∀ i : Nat, ((prepare xs).mutatedInput[i]?).map (fun r =>
          (r.temperature_2m, r.soil_temperature_0_to_7cm,
            r.soil_moisture_0_to_7cm, r.dew_point_2m, r.relative_humidity_2m))
        = (xs[i]?).map fun r =>
          (r.temperature_2m, r.soil_temperature_0_to_7cm,
            r.soil_moisture_0_to_7cm, r.dew_point_2m, r.relative_humidity_2m))
    ∧ ((∀ r ∈ xs, r.time = .dt r.time.instant) →
        (prepare xs).mutatedInput = xs) := by
  refine ⟨prepare_mutated_eq xs, ?_, ?_, ?_, ?_⟩
  · rw [prepare_mutated_eq]
    exact List.length_map ..
  · intro i
    rw [prepare_mutated_eq, List.getElem?_map]
    cases xs[i]? <;> rfl
  · intro i
    rw [prepare_mutated_eq, List.getElem?_map]
    cases xs[i]? <;> rfl
  · intro h
    rw [prepare_mutated_eq]
    have hfix : ∀ r ∈ xs, parseRow r = r := by
      intro r hr
      have ht := h r hr
      show { r with time := to_datetime r.time } = r
      rw [show to_datetime r.time = .dt r.time.instant from rfl, ← ht]
    calc xs.map parseRow = xs.map id := List.map_congr_left hfix
      _ = xs := List.map_id _

/-- C7 amended witness: a one-record input whose time is already parsed is
returned unchanged. -/
theorem prepare_parses_time_in_place_witness :
    (∀ r ∈ [parseRow (recTempOnly 1 5)], r.time = .dt r.time.instant)
    ∧ (prepare [parseRow (recTempOnly 1 5)]).mutatedInput =
        [parseRow (recTempOnly 1 5)] :=
  ⟨by decide,
    (prepare_parses_time_in_place [parseRow (recTempOnly 1 5)]).2.2.2.2 (by decide)⟩

/-- C10 counterexample: a failed remote load does not leave the previously
loaded session series unchanged: the click handler assigns the load result
to the session unconditionally, so the previous series is overwritten with
`None`. -/
theorem load_failure_clears_session_cex :
    loadButtonClick (some [recTempOnly 1 5]) (Except.error "boom") ≠
      some [recTempOnly 1 5] := by
  decide

/-- C10 amended: `load_gcs_csv` never raises to its caller: every failure is
reported exactly once and turned into `None`; the dashboard then stores that
result in the session, clearing any previously loaded series, and renders
nothing rather than failing; a successful load stores the new frame. -/
theorem load_gcs_csv_total_behavior (sess : Option (List WRec)) (res : GcsResult) :
    (∀ e : String, res = Except.error e →
      load_gcs_csv res = (none, ["GCS Error: " ++ e])
      ∧ loadButtonClick sess res = none
      ∧ rendersData (loadButtonClick sess res) = false)
    ∧ (∀ df : List WRec, res = Except.ok df →
      load_gcs_csv res = (some df, [])
      ∧ loadButtonClick sess res = some df
      ∧ rendersData (loadButtonClick sess res) = true) := by
  constructor
  · rintro e rfl
    exact ⟨rfl, rfl, rfl⟩
  · rintro df rfl
    exact ⟨rfl, rfl, rfl⟩

/-- C10 amended witness: a concrete failing load with a previously loaded
series: the report is emitted, the session ends up empty and nothing is
rendered. -/
theorem load_gcs_csv_total_behavior_witness :
    load_gcs_csv (Except.error "boom") = (none, ["GCS Error: " ++ "boom"])
    ∧ loadButtonClick (some [recEmpty]) (Except.error "boom") = none
    ∧ rendersData (loadButtonClick (some [recEmpty]) (Except.error "boom")) = false :=
  (load_gcs_csv_total_behavior (some [recEmpty]) (Except.error "boom")).1 "boom" rfl

end Meteo
